import Mathlib

/-!
Shallow embedding of the order lifecycle core of the seminar backend
(`src/index.js` and `src/unnamed/part_000`, two near-duplicate Express
implementations).  The spreadsheet store is modelled as a list of rows; the
three store helpers (`addToGoogleSheets`, `updateGoogleSheets`,
`getFromGoogleSheets`), the checkout-session handlers and the Stripe webhook
handler are translated directly from the JavaScript source.  Network success
is a parameter where the claims need it (payment-intent retrieval, notifier
transport); timestamps and random suffixes are explicit arguments.
-/

namespace Seminar

/-- Order status as stored in the `status` column: the source writes the
string literals `"pending"`, `"completed"`, `"failed"`. -/
inductive Status where
  | pending
  | completed
  | failed
deriving DecidableEq, Repr

/-- One row of the orders sheet, with the columns written by
`addToGoogleSheets` (src/unnamed/part_000 lines 136-152).  Fields the source
may leave `undefined` (no `|| ''` default at the call sites) are `Option`;
fields always defaulted to `''` are plain `String`. -/
structure OrderRow where
  orderReference : String
  customerName : Option String
  customerEmail : Option String
  customerPhone : String
  quantity : Int
  amountTotal : Int
  stripeSessionId : String
  stripePaymentIntentId : String
  status : Status
  productType : String
  shippingAddress : String
  shippingCity : String
  shippingPostcode : String
  createdAt : String
  updatedAt : String
deriving DecidableEq, Repr

/-- The sheet: an ordered list of rows (`sheet.getRows()`). -/
abbrev Store := List OrderRow

/-- The partial-update objects passed to `updateGoogleSheets` by the webhook
handler: only `status`, `stripe_payment_intent_id` and `updated_at` are ever
sent (part_000 lines 697-701 and 735-738). -/
structure RowUpdates where
  status : Option Status
  stripePaymentIntentId : Option String
  updatedAt : Option String
deriving DecidableEq, Repr

/-- `for (const [key, value] of Object.entries(updates)) row.set(key, value)`:
each present key overwrites the row's field, absent keys leave it alone. -/
def applyUpdates (u : RowUpdates) (r : OrderRow) : OrderRow :=
  { r with
    status := u.status.getD r.status
    stripePaymentIntentId := u.stripePaymentIntentId.getD r.stripePaymentIntentId
    updatedAt := u.updatedAt.getD r.updatedAt }

/-- `updateGoogleSheets(orderRef, updates)` (part_000 lines 161-189):
`rows.find(r => r.get('order_reference') === orderRef)` updates the first row
whose reference strictly equals `orderRef`; if none matches (including when
`orderRef` is `undefined`, modelled as `none`) it only warns and the sheet is
unchanged. -/
def updateGoogleSheets (orderRef : Option String) (u : RowUpdates) : Store → Store
  | [] => []
  | r :: rs =>
      if some r.orderReference = orderRef then applyUpdates u r :: rs
      else r :: updateGoogleSheets orderRef u rs

/-- `getFromGoogleSheets(orderRef)` (part_000 lines 191-210): first row whose
`order_reference` equals `orderRef`, or `null`. -/
def getFromGoogleSheets (orderRef : String) : Store → Option OrderRow
  | [] => none
  | r :: rs => if r.orderReference = orderRef then some r else getFromGoogleSheets orderRef rs

/-- JavaScript `a || b` on strings: `''` is falsy. -/
def jsOr (a b : String) : String := if a.isEmpty then b else a

/-- JavaScript `a || b` where `a` may be `undefined` (`none`) or an empty
string. -/
def jsOrOpt (o : Option String) (d : String) : String :=
  match o with
  | some s => jsOr s d
  | none => d

/-- JavaScript truthiness of a possibly-undefined string value (used by the
`if (!x)` validation guards). -/
def truthy (o : Option String) : Bool :=
  match o with
  | none => false
  | some s => !s.isEmpty

/-- JavaScript truthiness of a possibly-undefined number (`!quantity` is true
for `undefined` and `0`). -/
def truthyInt (o : Option Int) : Bool :=
  match o with
  | none => false
  | some n => n != 0

/-- The `metadata` object attached to a Stripe checkout session at creation
and read back by the webhook handler.  Every value is a string in Stripe;
keys the creating handler did not set are `undefined` (`none`). -/
structure SessMetadata where
  orderRef : Option String
  name : Option String
  quantity : Option String
  phone : Option String
  productType : Option String
  address : Option String
  city : Option String
  postcode : Option String
deriving DecidableEq, Repr

/-- The checkout-session object (`event.data.object`) as used by the webhook
handler: `session.payment_intent` is a string (empty models `null`). -/
structure Session where
  id : String
  metadata : SessMetadata
  customerEmail : String
  amountTotal : Int
  paymentIntent : String
deriving DecidableEq, Repr

/-- A signature-verified Stripe event as returned by
`stripe.webhooks.constructEvent`: a `type` string and the session payload. -/
structure StripeEvent where
  type : String
  session : Session
deriving DecidableEq, Repr

/-- The argument object handed to `sendConfirmationEmail(data, type)` plus
the `type` tag, i.e. the content determinants of one dispatched confirmation
message.  Keys a call site does not pass are `none`.  `quantity` keeps the
metadata string; the book template of part_000 applies `parseInt` to it when
rendering, a deterministic function of the same string. -/
structure EmailData where
  kind : String
  email : String
  name : Option String
  orderRef : Option String
  quantity : Option String
  address : Option String
  city : Option String
  postcode : Option String
  amountTotal : Option Int
deriving DecidableEq, Repr

/-- The ticket-confirmation call `sendConfirmationEmail({email, name,
orderRef, quantity}, 'ticket')` (part_000 lines 718-723, identical in
index.js lines 521-526). -/
def ticketEmail (s : Session) : EmailData :=
  ⟨"ticket", s.customerEmail, s.metadata.name, s.metadata.orderRef,
   s.metadata.quantity, none, none, none, none⟩

/-- The book-confirmation call of part_000 (lines 707-716): adds shipping
fields, `quantity: parseInt(session.metadata.quantity)` and
`amountTotal: session.amount_total`. -/
def bookEmail (s : Session) : EmailData :=
  ⟨"book", s.customerEmail, s.metadata.name, s.metadata.orderRef,
   s.metadata.quantity, s.metadata.address, s.metadata.city,
   s.metadata.postcode, some s.amountTotal⟩

/-- The book-confirmation call of index.js (lines 511-519): same fields but
no `quantity`. -/
def bookEmailIdx (s : Session) : EmailData :=
  ⟨"book", s.customerEmail, s.metadata.name, s.metadata.orderRef,
   none, s.metadata.address, s.metadata.city,
   s.metadata.postcode, some s.amountTotal⟩

/-- Observable outcome of one webhook request: HTTP status sent to the
gateway, the sheet after processing, and the confirmation messages that were
actually delivered by the mail transport. -/
structure WebhookResult where
  httpStatus : Nat
  store : Store
  emails : List EmailData
deriving DecidableEq, Repr

/-- `POST /api/webhooks/stripe` of src/unnamed/part_000 (lines 656-751).
`sigOk` is the outcome of `stripe.webhooks.constructEvent` (false models the
thrown signature error, handled by `return res.status(400)`), `piRes` the
outcome of `stripe.paymentIntents.retrieve(session.payment_intent)` (`none`
models the caught retrieval error, which keeps `session.payment_intent`),
`notifierOk` the mail transport outcome: this file's
`sendConfirmationEmail` rethrows transport errors (line 316), which the
handler's outer catch turns into a 500 response after the sheet update has
already been applied.  The sheet update itself is taken as reachable. -/
def webhookStripe (sigOk : Bool) (ev : StripeEvent) (piRes : Option String)
    (notifierOk : Bool) (now : String) (store : Store) : WebhookResult :=
  if !sigOk then ⟨400, store, []⟩
  else if ev.type = "checkout.session.completed" then
    let s := ev.session
    let productType := jsOrOpt s.metadata.productType "ticket"
    let paymentIntentId := piRes.getD s.paymentIntent
    let store' := updateGoogleSheets s.metadata.orderRef
      ⟨some Status.completed, some (jsOr paymentIntentId (jsOr s.paymentIntent "")), some now⟩
      store
    let mail := if productType = "book" then bookEmail s else ticketEmail s
    if notifierOk then ⟨200, store', [mail]⟩ else ⟨500, store', []⟩
  else if ev.type = "checkout.session.expired" then
    ⟨200,
     updateGoogleSheets ev.session.metadata.orderRef
       ⟨some Status.failed, none, some now⟩ store,
     []⟩
  else ⟨200, store, []⟩

/-- `POST /api/webhooks/stripe` of src/index.js (lines 477-554).  Differences
from part_000: no payment-intent retrieval (`stripe_payment_intent_id:
session.payment_intent` directly, line 505), the index.js
`sendConfirmationEmail` swallows transport errors (lines 218-220), so a
notifier failure still ends in `res.json({received:true})`, and the book
email carries no quantity. -/
def webhookStripeIdx (sigOk : Bool) (ev : StripeEvent)
    (notifierOk : Bool) (now : String) (store : Store) : WebhookResult :=
  if !sigOk then ⟨400, store, []⟩
  else if ev.type = "checkout.session.completed" then
    let s := ev.session
    let productType := jsOrOpt s.metadata.productType "ticket"
    let store' := updateGoogleSheets s.metadata.orderRef
      ⟨some Status.completed, some s.paymentIntent, some now⟩ store
    let mail := if productType = "book" then bookEmailIdx s else ticketEmail s
    ⟨200, store', if notifierOk then [mail] else []⟩
  else if ev.type = "checkout.session.expired" then
    ⟨200,
     updateGoogleSheets ev.session.metadata.orderRef
       ⟨some Status.failed, none, some now⟩ store,
     []⟩
  else ⟨200, store, []⟩

/-- Request body of the unified `POST /api/create-checkout-session` of
src/unnamed/part_000 (line 330): absent JSON keys are `none`. -/
structure CheckoutInput where
  quantity : Option Int
  customerName : Option String
  customerEmail : Option String
  customerPhone : Option String
  productType : Option String
  address : Option String
  city : Option String
  postcode : Option String
deriving DecidableEq, Repr

/-- The line-item request sent to
`stripe.checkout.sessions.create`: the unit amount, quantity, customer email
and the metadata attached to the session. -/
structure CheckoutReq where
  unitAmount : Int
  quantity : Int
  customerEmail : Option String
  metadata : SessMetadata
deriving DecidableEq, Repr

/-- Observable outcome of one checkout-initiation request: HTTP status,
the gateway call if one was made, and the sheet row appended if one was. -/
structure InitResult where
  httpStatus : Nat
  gatewayCall : Option CheckoutReq
  rowAdded : Option OrderRow
deriving DecidableEq, Repr

/-- Unified `POST /api/create-checkout-session` of src/unnamed/part_000
(lines 328-421).  `gwSessionId`/`gwAmountTotal` are the gateway's reply
(`session.id`, `session.amount_total`); `nowMs`/`rand` feed the order
reference, `nowIso` the timestamps.  Validation: `!quantity || quantity < 1`
(none or < 1, since 0 < 1), product type must be `ticket` or `book`, and a
book needs truthy `address`, `city`, `postcode` — all before any gateway or
store call.  The unit amount is the server-side constant 1999 (book) or
2500 (ticket); the persisted `amount_total` is `session.amount_total`. -/
def createCheckoutSession (inp : CheckoutInput) (gwSessionId : String)
    (gwAmountTotal : Int) (nowMs : Nat) (rand : String) (nowIso : String) : InitResult :=
  match inp.quantity with
  | none => ⟨400, none, none⟩
  | some q =>
    if q < 1 then ⟨400, none, none⟩
    else if ¬(inp.productType = some "ticket" ∨ inp.productType = some "book") then
      ⟨400, none, none⟩
    else if inp.productType = some "book" ∧
        (truthy inp.address = false ∨ truthy inp.city = false ∨ truthy inp.postcode = false) then
      ⟨400, none, none⟩
    else
      let isBook := inp.productType = some "book"
      let orderRef := (if isBook then "BOOK-" else "TIX-") ++ toString nowMs ++ "-" ++ rand
      let unitAmount : Int := if isBook then 1999 else 2500
      let md : SessMetadata :=
        ⟨some orderRef, inp.customerName, some (toString q),
         some (jsOrOpt inp.customerPhone ""), inp.productType,
         if isBook then inp.address else none,
         if isBook then inp.city else none,
         if isBook then inp.postcode else none⟩
      let row : OrderRow :=
        ⟨orderRef, inp.customerName, inp.customerEmail, jsOrOpt inp.customerPhone "",
         q, gwAmountTotal, gwSessionId, "", Status.pending,
         jsOrOpt inp.productType "ticket",
         if isBook then jsOrOpt inp.address "" else "",
         if isBook then jsOrOpt inp.city "" else "",
         if isBook then jsOrOpt inp.postcode "" else "",
         nowIso, nowIso⟩
      ⟨200, some ⟨unitAmount, q, inp.customerEmail, md⟩, some row⟩

/-- Request body of the legacy `POST /api/create-checkout-session` of
src/index.js (line 232): the price comes from the client. -/
structure TicketCheckoutInput where
  name : Option String
  email : Option String
  phone : Option String
  quantity : Option Int
  ticketPrice : Option Int
deriving DecidableEq, Repr

/-- Legacy `POST /api/create-checkout-session` of src/index.js (lines
230-299).  Validation is `!name || !email || !quantity || !ticketPrice`;
afterwards the gateway line item uses `Math.round(ticketPrice * 100)` — a
client-supplied price — and the persisted row records
`amount_total: ticketPrice * quantity`, a client-derived value that ignores
the gateway's amount.  Metadata carries no `productType` and no shipping
keys; the row's defaults come from `addToGoogleSheets`. -/
def createCheckoutSessionIdx (inp : TicketCheckoutInput) (gwSessionId : String)
    (gwAmountTotal : Int) (nowMs : Nat) (rand : String) (nowIso : String) : InitResult :=
  if truthy inp.name = false ∨ truthy inp.email = false ∨
      truthyInt inp.quantity = false ∨ truthyInt inp.ticketPrice = false then
    ⟨400, none, none⟩
  else
    let q := inp.quantity.getD 0
    let price := inp.ticketPrice.getD 0
    let orderRef := "ORDER-" ++ toString nowMs ++ "-" ++ rand
    let md : SessMetadata :=
      ⟨some orderRef, inp.name, some (toString q),
       some (jsOrOpt inp.phone ""), none, none, none, none⟩
    let row : OrderRow :=
      ⟨orderRef, inp.name, inp.email, jsOrOpt inp.phone "",
       q, price * q, gwSessionId, "", Status.pending,
       "ticket", "", "", "", nowIso, nowIso⟩
    ⟨200, some ⟨price * 100, q, inp.email, md⟩, some row⟩

/-! Concrete sample data used by the counterexamples and witnesses. -/

/-- Metadata of a ticket checkout session for order `TIX-1-A`. -/
def mdTix : SessMetadata :=
  ⟨some "TIX-1-A", some "Alice", some "2", some "", some "ticket", none, none, none⟩

/-- A completed ticket session for order `TIX-1-A`. -/
def sessTix : Session := ⟨"cs_1", mdTix, "alice@example.com", 5000, "pi_1"⟩

/-- A verified `checkout.session.completed` event for `TIX-1-A`. -/
def evCompleted : StripeEvent := ⟨"checkout.session.completed", sessTix⟩

/-- A verified `checkout.session.expired` event for `TIX-1-A`. -/
def evExpired : StripeEvent := ⟨"checkout.session.expired", sessTix⟩

/-- A verified completed event whose metadata has no `orderRef` key. -/
def evNoRef : StripeEvent :=
  ⟨"checkout.session.completed",
   ⟨"cs_2", ⟨none, some "Alice", some "2", some "", some "ticket", none, none, none⟩,
    "alice@example.com", 5000, "pi_2"⟩⟩

/-- The pending sheet row for order `TIX-1-A`. -/
def rowPending : OrderRow :=
  ⟨"TIX-1-A", some "Alice", some "alice@example.com", "", 2, 5000, "cs_1", "",
   Status.pending, "ticket", "", "", "", "t0", "t0"⟩

/-- The same order after a first completed event was processed at `t1`. -/
def rowCompleted : OrderRow :=
  { rowPending with status := Status.completed, stripePaymentIntentId := "pi_1", updatedAt := "t1" }

/-- The same order in the failed terminal state. -/
def rowFailed : OrderRow :=
  { rowPending with status := Status.failed, updatedAt := "t1" }

/-- A legacy-handler request whose client chose `ticketPrice = 25` for two
tickets. -/
def inpTixLegacy : TicketCheckoutInput :=
  ⟨some "Alice", some "alice@example.com", none, some 2, some 25⟩

/-- A unified-handler ticket request that also supplies shipping fields. -/
def inpTicketWithShipping : CheckoutInput :=
  ⟨some 1, some "Alice", some "alice@example.com", none, some "ticket",
   some "1 Main St", some "Belfast", some "BT1"⟩

/-- A unified-handler book request with the city missing. -/
def inpBookNoCity : CheckoutInput :=
  ⟨some 1, some "Alice", some "alice@example.com", none, some "book",
   some "1 Main St", none, some "BT1"⟩

/-- A valid unified-handler book request. -/
def inpBookOk : CheckoutInput :=
  ⟨some 1, some "Alice", some "alice@example.com", none, some "book",
   some "1 Main St", some "Belfast", some "BT1"⟩

/-! Helper lemmas about the store operations. -/

/-- `row.set` never touches the `order_reference` column. -/
theorem applyUpdates_orderReference (u : RowUpdates) (r : OrderRow) :
    (applyUpdates u r).orderReference = r.orderReference := rfl

/-- Reading back after an update: the first matching row is the updated
one. -/
theorem getFrom_update (ref : String) (u : RowUpdates) (s : Store) :
    getFromGoogleSheets ref (updateGoogleSheets (some ref) u s)
      = (getFromGoogleSheets ref s).map (applyUpdates u) := by
  induction s with
  | nil => rfl
  | cons r rs ih =>
    by_cases h : r.orderReference = ref
    · simp [updateGoogleSheets, getFromGoogleSheets, h, applyUpdates_orderReference]
    · simp [updateGoogleSheets, getFromGoogleSheets, h, ih]

/-- Updating a reference absent from the sheet leaves it unchanged. -/
theorem update_not_found (ref : String) (u : RowUpdates) (s : Store)
    (h : getFromGoogleSheets ref s = none) :
    updateGoogleSheets (some ref) u s = s := by
  induction s with
  | nil => rfl
  | cons r rs ih =>
    by_cases hc : r.orderReference = ref
    · simp [getFromGoogleSheets, hc] at h
    · simp [getFromGoogleSheets, hc] at h
      simp [updateGoogleSheets, hc, ih h]

/-- Updating with an `undefined` reference matches no row. -/
theorem update_none_ref (u : RowUpdates) (s : Store) :
    updateGoogleSheets none u s = s := by
  induction s with
  | nil => rfl
  | cons r rs ih => simp [updateGoogleSheets, ih]

/-- If a non-empty string stands anywhere in the JavaScript `a || b || ''`
fallback chain, the result is non-empty. -/
theorem jsOr_chain_ne_empty (a b : String) (hb : b ≠ "") : jsOr a (jsOr b "") ≠ "" := by
  unfold jsOr
  by_cases ha : a.isEmpty
  · have hbe : b.isEmpty = false := by
      cases hbeq : b.isEmpty
      · rfl
      · exact absurd ((String.isEmpty_iff b).mp hbeq) hb
    simp [ha, hbe]
    exact hb
  · simp [ha]
    intro hcontra
    exact ha ((String.isEmpty_iff a).mpr hcontra)

/-- Unfolding lemma for the completed branch of the part_000 webhook
handler. -/
theorem webhookStripe_completed (ev : StripeEvent) (piRes : Option String)
    (notifierOk : Bool) (now : String) (store : Store)
    (htype : ev.type = "checkout.session.completed") :
    webhookStripe true ev piRes notifierOk now store =
      ⟨if notifierOk then 200 else 500,
       updateGoogleSheets ev.session.metadata.orderRef
         ⟨some Status.completed,
          some (jsOr (piRes.getD ev.session.paymentIntent) (jsOr ev.session.paymentIntent "")),
          some now⟩ store,
       if notifierOk then
         [if jsOrOpt ev.session.metadata.productType "ticket" = "book" then bookEmail ev.session
          else ticketEmail ev.session]
       else []⟩ := by
  unfold webhookStripe
  rw [htype, if_neg (by decide : ¬((!true) = true)), if_pos rfl]
  cases notifierOk <;> rfl

/-- Unfolding lemma for the expired branch of the part_000 webhook
handler. -/
theorem webhookStripe_expired (ev : StripeEvent) (piRes : Option String)
    (notifierOk : Bool) (now : String) (store : Store)
    (htype : ev.type = "checkout.session.expired") :
    webhookStripe true ev piRes notifierOk now store =
      ⟨200,
       updateGoogleSheets ev.session.metadata.orderRef
         ⟨some Status.failed, none, some now⟩ store,
       []⟩ := by
  unfold webhookStripe
  rw [htype, if_neg (by decide : ¬((!true) = true)),
    if_neg (by decide : ¬("checkout.session.expired" = "checkout.session.completed")),
    if_pos rfl]

/-- Unfolding lemma for the completed branch of the index.js webhook
handler. -/
theorem webhookStripeIdx_completed (ev : StripeEvent)
    (notifierOk : Bool) (now : String) (store : Store)
    (htype : ev.type = "checkout.session.completed") :
    webhookStripeIdx true ev notifierOk now store =
      ⟨200,
       updateGoogleSheets ev.session.metadata.orderRef
         ⟨some Status.completed, some ev.session.paymentIntent, some now⟩ store,
       if notifierOk then
         [if jsOrOpt ev.session.metadata.productType "ticket" = "book" then bookEmailIdx ev.session
          else ticketEmail ev.session]
       else []⟩ := by
  unfold webhookStripeIdx
  rw [htype, if_neg (by decide : ¬((!true) = true)), if_pos rfl]

/-- Unfolding lemma for the default (ignored event type) branch of the
part_000 webhook handler. -/
theorem webhookStripe_other (ev : StripeEvent) (piRes : Option String)
    (notifierOk : Bool) (now : String) (store : Store)
    (h1 : ev.type ≠ "checkout.session.completed")
    (h2 : ev.type ≠ "checkout.session.expired") :
    webhookStripe true ev piRes notifierOk now store = ⟨200, store, []⟩ := by
  unfold webhookStripe
  rw [if_neg (by decide : ¬((!true) = true)), if_neg h1, if_neg h2]

/-- Claim C5: a webhook request whose payload fails signature verification is
answered with HTTP 400 and causes no state mutation: the sheet is returned
unchanged, no store update is attempted and no notification is dispatched,
in both implementations of the handler. -/
theorem C5_bad_signature_rejected (ev : StripeEvent) (piRes : Option String)
    (notifierOk : Bool) (now : String) (store : Store) :
    webhookStripe false ev piRes notifierOk now store = ⟨400, store, []⟩ ∧
    webhookStripeIdx false ev notifierOk now store = ⟨400, store, []⟩ :=
  ⟨rfl, rfl⟩

/-- Claim C10: the dispatched confirmation messages are a function of the
verified event (and the notifier/retrieval outcomes) alone, never of the
persisted order record: processing the same event against any two store
contents yields identical notifications. -/
theorem C10_email_independent_of_store (sigOk : Bool) (ev : StripeEvent)
    (piRes : Option String) (notifierOk : Bool) (now : String) (s1 s2 : Store) :
    (webhookStripe sigOk ev piRes notifierOk now s1).emails
      = (webhookStripe sigOk ev piRes notifierOk now s2).emails := by
  unfold webhookStripe
  split_ifs <;> rfl

/-- Claim C1 counterexample: order `TIX-1-A` is already in the terminal state
`completed`, yet redelivering the identical completed event dispatches one
more notification (the claim requires zero) and rewrites the row, refreshing
`updated_at`. -/
theorem C1_redelivery_not_noop_cex :
    (webhookStripe true evCompleted none true "t2" [rowCompleted]).emails.length = 1 ∧
    (webhookStripe true evCompleted none true "t2" [rowCompleted]).store
      = [{ rowCompleted with updatedAt := "t2" }] ∧
    rowCompleted.status = Status.completed := by decide

/-- Claim C1 (amended): the webhook handler never consults the order's
current status, so an event for an order already in a terminal state is
reprocessed: a completed event re-applies the completed update (refreshing
`updated_at`, and overwriting a failed status to completed) and, when the
notifier transport succeeds, dispatches one additional notification on every
delivery. -/
theorem C1_terminal_event_reprocessed (ev : StripeEvent) (piRes : Option String)
    (now ref : String) (store : Store) (row : OrderRow)
    (htype : ev.type = "checkout.session.completed")
    (href : ev.session.metadata.orderRef = some ref)
    (hrow : getFromGoogleSheets ref store = some row)
    (_hterm : row.status = Status.completed ∨ row.status = Status.failed) :
    (webhookStripe true ev piRes true now store).emails.length = 1 ∧
    (webhookStripe true ev piRes true now store).httpStatus = 200 ∧
    ∃ row2,
      getFromGoogleSheets ref (webhookStripe true ev piRes true now store).store = some row2 ∧
      row2.status = Status.completed ∧ row2.updatedAt = now := by
  rw [webhookStripe_completed ev piRes true now store htype, href]
  refine ⟨rfl, rfl, ?_⟩
  rw [getFrom_update, hrow]
  exact ⟨_, rfl, rfl, rfl⟩

/-- Claim C1 witness: the amended theorem instantiated at the completed order
`TIX-1-A` and its redelivered completed event. -/
theorem C1_terminal_event_reprocessed_witness :
    (webhookStripe true evCompleted none true "t2" [rowCompleted]).emails.length = 1 ∧
    (webhookStripe true evCompleted none true "t2" [rowCompleted]).httpStatus = 200 ∧
    ∃ row2,
      getFromGoogleSheets "TIX-1-A"
        (webhookStripe true evCompleted none true "t2" [rowCompleted]).store = some row2 ∧
      row2.status = Status.completed ∧ row2.updatedAt = "t2" :=
  C1_terminal_event_reprocessed evCompleted none "t2" "TIX-1-A" [rowCompleted] rowCompleted
    (by decide) (by decide) (by decide) (Or.inl (by decide))

/-- Claim C4 counterexample: an expired event delivered for order `TIX-1-A`,
which is already `completed`, does not leave the order unchanged — the
handler overwrites its status to `failed`. -/
theorem C4_expired_overwrites_completed_cex :
    rowCompleted.status = Status.completed ∧
    (getFromGoogleSheets "TIX-1-A"
        (webhookStripe true evExpired none true "t2" [rowCompleted]).store).map OrderRow.status
      = some Status.failed := by decide

/-- Claim C4 (amended): a verified expired event transitions the referenced
order to `failed` without sending any notification; but the handler performs
no status check, so this overwrite applies to any current status, including
an order that is already `completed`. -/
theorem C4_expired_sets_failed (ev : StripeEvent) (piRes : Option String)
    (notifierOk : Bool) (now ref : String) (store : Store) (row : OrderRow)
    (htype : ev.type = "checkout.session.expired")
    (href : ev.session.metadata.orderRef = some ref)
    (hrow : getFromGoogleSheets ref store = some row) :
    (webhookStripe true ev piRes notifierOk now store).emails = [] ∧
    (webhookStripe true ev piRes notifierOk now store).httpStatus = 200 ∧
    getFromGoogleSheets ref (webhookStripe true ev piRes notifierOk now store).store
      = some { row with status := Status.failed, updatedAt := now } := by
  rw [webhookStripe_expired ev piRes notifierOk now store htype, href]
  refine ⟨rfl, rfl, ?_⟩
  rw [getFrom_update, hrow]
  rfl

/-- Claim C4 witness: the amended theorem instantiated at the completed order
`TIX-1-A` and an expired event for it. -/
theorem C4_expired_sets_failed_witness :
    (webhookStripe true evExpired none true "t2" [rowCompleted]).emails = [] ∧
    (webhookStripe true evExpired none true "t2" [rowCompleted]).httpStatus = 200 ∧
    getFromGoogleSheets "TIX-1-A" (webhookStripe true evExpired none true "t2" [rowCompleted]).store
      = some { rowCompleted with status := Status.failed, updatedAt := "t2" } :=
  C4_expired_sets_failed evExpired none true "t2" "TIX-1-A" [rowCompleted] rowCompleted
    (by decide) (by decide) (by decide)

/-- Claim C2: a signature-verified completed event for a known pending order
sets that order to `completed` with a non-empty `stripe_payment_intent_id`
and, when the notifier transport succeeds, dispatches exactly one
notification to the order's customer email.  The event carries the
payment-intent id of a genuinely completed session (non-empty) and, for an
event of this order, the email the session was created with. -/
theorem C2_completed_pending_order (ev : StripeEvent) (piRes : Option String)
    (now ref : String) (store : Store) (row : OrderRow)
    (htype : ev.type = "checkout.session.completed")
    (href : ev.session.metadata.orderRef = some ref)
    (hrow : getFromGoogleSheets ref store = some row)
    (_hpend : row.status = Status.pending)
    (hpi : ev.session.paymentIntent ≠ "")
    (_hmail : row.customerEmail = some ev.session.customerEmail) :
    (webhookStripe true ev piRes true now store).httpStatus = 200 ∧
    (webhookStripe true ev piRes true now store).emails.map EmailData.email
      = [ev.session.customerEmail] ∧
    ∃ row2,
      getFromGoogleSheets ref (webhookStripe true ev piRes true now store).store = some row2 ∧
      row2.status = Status.completed ∧ row2.stripePaymentIntentId ≠ "" := by
  rw [webhookStripe_completed ev piRes true now store htype, href]
  refine ⟨rfl, ?_, ?_⟩
  · by_cases hb : jsOrOpt ev.session.metadata.productType "ticket" = "book"
    · simp [hb, bookEmail]
    · simp [hb, ticketEmail]
  · rw [getFrom_update, hrow]
    exact ⟨_, rfl, rfl, jsOr_chain_ne_empty _ _ hpi⟩

/-- Claim C2 witness: the theorem instantiated at the pending order
`TIX-1-A` and its completed event. -/
theorem C2_completed_pending_order_witness :
    (webhookStripe true evCompleted none true "t2" [rowPending]).httpStatus = 200 ∧
    (webhookStripe true evCompleted none true "t2" [rowPending]).emails.map EmailData.email
      = [evCompleted.session.customerEmail] ∧
    ∃ row2,
      getFromGoogleSheets "TIX-1-A"
        (webhookStripe true evCompleted none true "t2" [rowPending]).store = some row2 ∧
      row2.status = Status.completed ∧ row2.stripePaymentIntentId ≠ "" :=
  C2_completed_pending_order evCompleted none "t2" "TIX-1-A" [rowPending] rowPending
    (by decide) (by decide) (by decide) (by decide) (by decide) (by decide)

/-- Claim C7 counterexample: with a failing mail transport, the part_000
handler does not acknowledge success — the thrown notifier error reaches the
outer catch and the webhook responds 500 (so the gateway will redeliver),
even though the store update to `completed` already went through. -/
theorem C7_notifier_failure_responds_500_cex :
    (webhookStripe true evCompleted none false "t2" [rowPending]).httpStatus = 500 ∧
    (getFromGoogleSheets "TIX-1-A"
        (webhookStripe true evCompleted none false "t2" [rowPending]).store).map OrderRow.status
      = some Status.completed ∧
    (500 : Nat) ≠ 200 := by decide

/-- Claim C7 (amended): a notifier failure after the store update never rolls
the completed status back, in either implementation; but the two
implementations answer the gateway differently: index.js swallows the email
error and acknowledges success (200), while part_000 propagates it and
responds 500, so the gateway retries. -/
theorem C7_no_rollback (ev : StripeEvent) (piRes : Option String)
    (now ref : String) (store : Store) (row : OrderRow)
    (htype : ev.type = "checkout.session.completed")
    (href : ev.session.metadata.orderRef = some ref)
    (hrow : getFromGoogleSheets ref store = some row) :
    (webhookStripe true ev piRes false now store).httpStatus = 500 ∧
    (webhookStripe true ev piRes false now store).emails = [] ∧
    (getFromGoogleSheets ref (webhookStripe true ev piRes false now store).store).map OrderRow.status
      = some Status.completed ∧
    (webhookStripeIdx true ev false now store).httpStatus = 200 ∧
    (webhookStripeIdx true ev false now store).emails = [] ∧
    (getFromGoogleSheets ref (webhookStripeIdx true ev false now store).store).map OrderRow.status
      = some Status.completed := by
  rw [webhookStripe_completed ev piRes false now store htype,
    webhookStripeIdx_completed ev false now store htype, href]
  refine ⟨rfl, rfl, ?_, rfl, rfl, ?_⟩ <;> rw [getFrom_update, hrow] <;> rfl

/-- Claim C7 witness: the amended theorem instantiated at the pending order
`TIX-1-A`, its completed event and a failing mail transport. -/
theorem C7_no_rollback_witness :
    (webhookStripe true evCompleted none false "t2" [rowPending]).httpStatus = 500 ∧
    (webhookStripe true evCompleted none false "t2" [rowPending]).emails = [] ∧
    (getFromGoogleSheets "TIX-1-A"
        (webhookStripe true evCompleted none false "t2" [rowPending]).store).map OrderRow.status
      = some Status.completed ∧
    (webhookStripeIdx true evCompleted false "t2" [rowPending]).httpStatus = 200 ∧
    (webhookStripeIdx true evCompleted false "t2" [rowPending]).emails = [] ∧
    (getFromGoogleSheets "TIX-1-A"
        (webhookStripeIdx true evCompleted false "t2" [rowPending]).store).map OrderRow.status
      = some Status.completed :=
  C7_no_rollback evCompleted none "t2" "TIX-1-A" [rowPending] rowPending
    (by decide) (by decide) (by decide)

/-- Claim C8 counterexample: a verified completed event for an order absent
from the sheet is acknowledged with 200 and modifies no row — but it still
dispatches a confirmation notification, which the claim forbids. -/
theorem C8_unknown_order_still_emails_cex :
    (webhookStripe true evCompleted none true "t2" []).httpStatus = 200 ∧
    (webhookStripe true evCompleted none true "t2" []).store = [] ∧
    (webhookStripe true evCompleted none true "t2" []).emails.length = 1 := by decide

/-- Claim C8 (amended): a verified event whose order reference is not found
leaves the sheet unmodified (`updateGoogleSheets` only warns) and the handler
acknowledges success with 200 — but for completed events a confirmation
notification is still dispatched to the event's customer email, because the
email send does not depend on the lookup having matched; expired events send
none. -/
theorem C8_unknown_order_processed (ev : StripeEvent) (piRes : Option String)
    (now ref : String) (store : Store)
    (href : ev.session.metadata.orderRef = some ref)
    (habs : getFromGoogleSheets ref store = none) :
    (webhookStripe true ev piRes true now store).store = store ∧
    (webhookStripe true ev piRes true now store).httpStatus = 200 ∧
    (ev.type = "checkout.session.completed" →
      (webhookStripe true ev piRes true now store).emails.length = 1) ∧
    (ev.type = "checkout.session.expired" →
      (webhookStripe true ev piRes true now store).emails = []) := by
  by_cases h1 : ev.type = "checkout.session.completed"
  · rw [webhookStripe_completed ev piRes true now store h1, href, update_not_found _ _ _ habs]
    refine ⟨rfl, rfl, fun _ => rfl, fun h2 => ?_⟩
    rw [h1] at h2
    exact absurd h2 (by decide)
  · by_cases h2 : ev.type = "checkout.session.expired"
    · rw [webhookStripe_expired ev piRes true now store h2, href, update_not_found _ _ _ habs]
      exact ⟨rfl, rfl, fun h => absurd h h1, fun _ => rfl⟩
    · rw [webhookStripe_other ev piRes true now store h1 h2]
      exact ⟨rfl, rfl, fun h => absurd h h1, fun h => absurd h h2⟩

/-- Claim C8 witness: the amended theorem instantiated at an empty sheet and
the completed event for the (therefore unknown) order `TIX-1-A`. -/
theorem C8_unknown_order_processed_witness :
    (webhookStripe true evCompleted none true "t2" []).store = ([] : Store) ∧
    (webhookStripe true evCompleted none true "t2" []).httpStatus = 200 ∧
    (evCompleted.type = "checkout.session.completed" →
      (webhookStripe true evCompleted none true "t2" []).emails.length = 1) ∧
    (evCompleted.type = "checkout.session.expired" →
      (webhookStripe true evCompleted none true "t2" []).emails = []) :=
  C8_unknown_order_processed evCompleted none "t2" "TIX-1-A" [] (by decide) (by decide)

/-- Claim C9 counterexample: a verified completed event whose metadata has no
`orderRef` is not failed closed: the handler answers 200 and still dispatches
a notification (the store lookup simply matches nothing). -/
theorem C9_missing_orderref_processed_cex :
    (webhookStripe true evNoRef none true "t2" [rowPending]).httpStatus = 200 ∧
    (webhookStripe true evNoRef none true "t2" [rowPending]).emails.length = 1 ∧
    (webhookStripe true evNoRef none true "t2" [rowPending]).store = [rowPending] := by decide

/-- Claim C9 (amended): the handler performs no correlation check and raises
no error when `orderRef` is absent from the event metadata: processing
proceeds, the `undefined` lookup key matches no row so no order is updated,
the event is acknowledged with 200, and a completed event still dispatches a
notification built from the event's fields. -/
theorem C9_no_correlation_check (ev : StripeEvent) (piRes : Option String)
    (now : String) (store : Store)
    (href : ev.session.metadata.orderRef = none) :
    (webhookStripe true ev piRes true now store).store = store ∧
    (webhookStripe true ev piRes true now store).httpStatus = 200 ∧
    (ev.type = "checkout.session.completed" →
      (webhookStripe true ev piRes true now store).emails.length = 1) := by
  by_cases h1 : ev.type = "checkout.session.completed"
  · rw [webhookStripe_completed ev piRes true now store h1, href, update_none_ref]
    exact ⟨rfl, rfl, fun _ => rfl⟩
  · by_cases h2 : ev.type = "checkout.session.expired"
    · rw [webhookStripe_expired ev piRes true now store h2, href, update_none_ref]
      exact ⟨rfl, rfl, fun h => absurd h h1⟩
    · rw [webhookStripe_other ev piRes true now store h1 h2]
      exact ⟨rfl, rfl, fun h => absurd h h1⟩

/-- Claim C9 witness: the amended theorem instantiated at the completed event
without an `orderRef` and a sheet holding the pending order `TIX-1-A`. -/
theorem C9_no_correlation_check_witness :
    (webhookStripe true evNoRef none true "t2" [rowPending]).store = [rowPending] ∧
    (webhookStripe true evNoRef none true "t2" [rowPending]).httpStatus = 200 ∧
    (evNoRef.type = "checkout.session.completed" →
      (webhookStripe true evNoRef none true "t2" [rowPending]).emails.length = 1) :=
  C9_no_correlation_check evNoRef none "t2" [rowPending] (by decide)

/-- Claim C3 counterexample: the legacy index.js checkout handler takes the
price from the client.  With client-chosen `ticketPrice = 25` and
`quantity = 2` it sends unit amount 2500 to the gateway, and lowering the
client's `ticketPrice` to 10 lowers the requested unit amount to 1000; the
persisted `amount_total` is the client-derived `ticketPrice * quantity = 50`
(pounds, not even pence), not the gateway-reported 5000. -/
theorem C3_client_price_cex :
    ((createCheckoutSessionIdx inpTixLegacy "cs_1" 5000 1 "R" "t0").gatewayCall).map
        CheckoutReq.unitAmount = some 2500 ∧
    ((createCheckoutSessionIdx { inpTixLegacy with ticketPrice := some 10 } "cs_1" 5000 1 "R"
          "t0").gatewayCall).map CheckoutReq.unitAmount = some 1000 ∧
    ((createCheckoutSessionIdx inpTixLegacy "cs_1" 5000 1 "R" "t0").rowAdded).map
        OrderRow.amountTotal = some 50 ∧
    (50 : Int) ≠ 5000 := by decide

/-- Claim C3 (amended): the unified checkout handler of part_000 computes
the unit price server-side from the product type alone (1999 for a book,
2500 for a ticket) and persists the gateway's reported `amount_total` as the
order's canonical amount; the legacy index.js handlers instead use
client-supplied prices and persist a client-derived amount. -/
theorem C3_unified_server_price (inp : CheckoutInput) (gwSessionId : String)
    (gwAmountTotal : Int) (nowMs : Nat) (rand nowIso : String) (q : Int)
    (hq : inp.quantity = some q) (hq1 : 1 ≤ q)
    (hpt : inp.productType = some "ticket" ∨ inp.productType = some "book")
    (hship : inp.productType = some "book" →
      truthy inp.address = true ∧ truthy inp.city = true ∧ truthy inp.postcode = true) :
    ∃ req row,
      createCheckoutSession inp gwSessionId gwAmountTotal nowMs rand nowIso
        = ⟨200, some req, some row⟩ ∧
      req.unitAmount = (if inp.productType = some "book" then 1999 else 2500) ∧
      row.amountTotal = gwAmountTotal := by
  have hcond3 : ¬(inp.productType = some "book" ∧
      (truthy inp.address = false ∨ truthy inp.city = false ∨ truthy inp.postcode = false)) := by
    rintro ⟨hb, hmiss⟩
    obtain ⟨ha, hc, hp⟩ := hship hb
    rcases hmiss with h | h | h <;> simp_all
  unfold createCheckoutSession
  rw [hq]
  dsimp only
  rw [if_neg (not_lt.mpr hq1), if_neg (not_not_intro hpt), if_neg hcond3]
  exact ⟨_, _, rfl, rfl, rfl⟩

/-- Claim C3 witness: the amended theorem instantiated at a valid book
request whose gateway session reports `amount_total = 2099`. -/
theorem C3_unified_server_price_witness :
    ∃ req row,
      createCheckoutSession inpBookOk "cs_4" 2099 5 "R" "t0" = ⟨200, some req, some row⟩ ∧
      req.unitAmount = (if inpBookOk.productType = some "book" then 1999 else 2500) ∧
      row.amountTotal = 2099 :=
  C3_unified_server_price inpBookOk "cs_4" 2099 5 "R" "t0" 1 (by decide) (by decide)
    (Or.inr (by decide)) (fun _ => by decide)

/-- Claim C6 counterexample: a ticket request that also supplies shipping
fields is not rejected — the unified handler accepts it with 200 and calls
the gateway, where the claim requires a 400 validation error before any
external call. -/
theorem C6_ticket_with_shipping_accepted_cex :
    (createCheckoutSession inpTicketWithShipping "cs_3" 2500 1 "R" "t0").httpStatus = 200 ∧
    (createCheckoutSession inpTicketWithShipping "cs_3" 2500 1 "R" "t0").gatewayCall ≠ none := by
  decide

/-- Claim C6 (amended): a book request with any shipping field missing (or
empty) is rejected with 400 before any gateway or store call; a ticket
request with shipping fields supplied is accepted, its shipping values being
ignored — they are neither forwarded in the session metadata nor persisted
on the order row. -/
theorem C6_validation (inp : CheckoutInput) (gwSessionId : String) (gwAmountTotal : Int)
    (nowMs : Nat) (rand nowIso : String) :
    (inp.productType = some "book" →
      (truthy inp.address = false ∨ truthy inp.city = false ∨ truthy inp.postcode = false) →
      createCheckoutSession inp gwSessionId gwAmountTotal nowMs rand nowIso
        = ⟨400, none, none⟩) ∧
    (∀ q : Int, inp.productType = some "ticket" → inp.quantity = some q → 1 ≤ q →
      ∃ req row,
        createCheckoutSession inp gwSessionId gwAmountTotal nowMs rand nowIso
          = ⟨200, some req, some row⟩ ∧
        req.metadata.address = none ∧ row.shippingAddress = "") := by
  constructor
  · intro hb hmiss
    unfold createCheckoutSession
    cases hquant : inp.quantity with
    | none => rfl
    | some q =>
      dsimp only
      by_cases hlt : q < 1
      · rw [if_pos hlt]
      · rw [if_neg hlt, if_neg (not_not_intro (Or.inr hb)), if_pos ⟨hb, hmiss⟩]
  · intro q hpt hq hq1
    have hnb : ¬(inp.productType = some "book") := by
      rw [hpt]
      simp
    unfold createCheckoutSession
    rw [hq]
    dsimp only
    rw [if_neg (not_lt.mpr hq1), if_neg (not_not_intro (Or.inl hpt)),
      if_neg (fun hcon => hnb hcon.1)]
    refine ⟨_, _, rfl, ?_, ?_⟩ <;> simp [hnb]

/-- Claim C6 witness: the amended theorem applied to a book request with the
city missing (rejected with no external call) and to a ticket request
carrying shipping fields (accepted with the shipping ignored). -/
theorem C6_validation_witness :
    (createCheckoutSession inpBookNoCity "cs_5" 2099 6 "R" "t0" = ⟨400, none, none⟩) ∧
    ∃ req row,
      createCheckoutSession inpTicketWithShipping "cs_3" 2500 1 "R" "t0"
        = ⟨200, some req, some row⟩ ∧
      req.metadata.address = none ∧ row.shippingAddress = "" :=
  ⟨(C6_validation inpBookNoCity "cs_5" 2099 6 "R" "t0").1 (by decide)
      (Or.inr (Or.inl (by decide))),
   (C6_validation inpTicketWithShipping "cs_3" 2500 1 "R" "t0").2 1 (by decide) (by decide)
      (by decide)⟩

end Seminar
